import Mathlib

/-!
Verification development for the AuraLogic virtual-inventory core:
script delivery result parsing, script HTTP egress hardening,
the pending-delivery dual-path formula, and the lifecycle reconciler
(order auto-cancel and ticket auto-close sweeps).

Definitions are shallow embeddings of the Go source in
`backend/internal/service/`.  Where the deciding Go code is not part of
the provided sources (the pending-quantity formula in
`virtual_inventory_service.go`, the `validateExternalURL` egress guard),
the definition is modelled from the specification and says so in its
doc comment.
-/

namespace AuraLogic

/-! ### Exported script values

Model of the Go-side view of a goja script value after `Export()`:
`nil`/undefined collapse to `Option.none` at the call site, and an
exported value is either a scalar, an array (`[]interface\x7b\x7d`) or a
string-keyed map. -/

inductive GoValue where
  | vnull : GoValue
  | vbool (b : Bool) : GoValue
  | vstr (s : String) : GoValue
  | vint (n : Int) : GoValue
  | varr (xs : List GoValue) : GoValue
  | vobj (fields : List (String × GoValue)) : GoValue

/-- First-match field lookup in an exported map (Go map keys are unique). -/
def lookupF (fields : List (String × GoValue)) (k : String) : Option GoValue :=
  match fields with
  | [] => none
  | (k', v) :: rest => if k' = k then some v else lookupF rest k

/-- One delivery item (`ScriptDeliveryItem` in the source). -/
structure ScriptDeliveryItem where
  content : String
  remark : String
deriving DecidableEq, Repr

/-- Parsed script delivery result (`ScriptDeliveryResult` in the source). -/
structure ScriptDeliveryResult where
  success : Bool
  items : List ScriptDeliveryItem
  message : String
deriving DecidableEq, Repr

/-- Outcome of `parseDeliveryResult`: the Go function returns
`(*ScriptDeliveryResult, error)`; we record the accepted result together
with whether the count-mismatch warning was logged, or the error message. -/
inductive ParseOutcome where
  | ok (r : ScriptDeliveryResult) (warned : Bool) : ParseOutcome
  | err (e : String) : ParseOutcome

/-- Conversion of one exported array element to a delivery item,
following the loop body in `parseDeliveryResult` (lines 404-417):
only map-shaped entries contribute, `content` and `remark` are taken
only when they are strings, and entries with empty `content` are
filtered out. -/
def itemOfGo (v : GoValue) : Option ScriptDeliveryItem :=
  match v with
  | .vobj f =>
      let content := match lookupF f "content" with
        | some (.vstr s) => s
        | _ => ""
      let remark := match lookupF f "remark" with
        | some (.vstr s) => s
        | _ => ""
      if content ≠ "" then some ⟨content, remark⟩ else none
  | _ => none

/-- The list of valid items extracted from the script's return object:
the `items` field must be an array, and each element passes through
`itemOfGo`. -/
def extractValidItems (fields : List (String × GoValue)) : List ScriptDeliveryItem :=
  match lookupF fields "items" with
  | some (.varr xs) => xs.filterMap itemOfGo
  | _ => []

/-- Shallow embedding of `parseDeliveryResult` (script_delivery_service.go,
lines 373-430).  `none` stands for a `nil`/undefined goja value. -/
def parseDeliveryResult (v : Option GoValue) (expectedQty : Int) : ParseOutcome :=
  match v with
  | none => .err "script returned empty result"
  | some .vnull => .err "script returned empty result"
  | some (.vobj fields) =>
      let success := match lookupF fields "success" with
        | some (.vbool b) => b
        | _ => false
      let message := match lookupF fields "message" with
        | some (.vstr s) => s
        | _ => ""
      if success then
        let items := extractValidItems fields
        if items.isEmpty then
          .err "script returned no delivery items"
        else
          .ok ⟨true, items, message⟩ (decide ((items.length : Int) ≠ expectedQty))
      else
        let m := if message = "" then "script delivery failed" else message
        .err ("script delivery failed: " ++ m)
  | some _ => .err "script must return an object with \x7bsuccess, items\x7d"

/-- Modelled from the spec: the delivery executor
(`executeScriptDelivery` in `virtual_inventory_service.go`, not among the
provided sources) creates one `sold` stock row per validated item when
parsing succeeds, and creates no rows when the attempt fails. -/
def stockRowsCreated : ParseOutcome → Nat
  | .ok r _ => r.items.length
  | .err _ => 0

/-! ### Script HTTP egress (doHTTPRequest) -/

/-- Destination host of a parsed URL: either a hostname or a literal
IPv4 address given by its four octets. -/
inductive Host where
  | name (s : String) : Host
  | ipv4 (a b c d : Nat) : Host
deriving DecidableEq, Repr

/-- The parts of a parsed URL that the egress guard inspects. -/
structure URLm where
  scheme : String
  host : Host
deriving DecidableEq, Repr

/-- Modelled from the spec: `validateExternalURL` (defined outside the
provided sources, in the payment service file) restricts the scheme to
`http`/`https` and rejects loopback, link-local and private destinations
(anti-SSRF), including `localhost`. -/
def validateExternalURL (u : URLm) : Except String Unit :=
  if u.scheme ≠ "http" ∧ u.scheme ≠ "https" then
    .error "scheme not allowed"
  else
    match u.host with
    | .name s => if s = "localhost" then .error "local address not allowed" else .ok ()
    | .ipv4 a b _ _ =>
        if a = 127 then .error "loopback address not allowed"
        else if a = 169 ∧ b = 254 then .error "link-local address not allowed"
        else if a = 10 ∨ (a = 172 ∧ 16 ≤ b ∧ b ≤ 31) ∨ (a = 192 ∧ b = 168) then
          .error "private address not allowed"
        else .ok ()

/-- ASCII case folding of a character code, used to model Go's
`strings.EqualFold` on header names (header names are ASCII). -/
def foldCharN (c : Char) : Nat :=
  if 65 ≤ c.toNat ∧ c.toNat ≤ 90 then c.toNat + 32 else c.toNat

/-- Case-insensitive string comparison (model of `strings.EqualFold`
restricted to ASCII, which covers all header names involved). -/
def eqFold (a b : String) : Bool :=
  a.data.map foldCharN == b.data.map foldCharN

/-- A script-supplied header name that `doHTTPRequest` refuses to copy
onto the outgoing request (lines 313-318). -/
def blockedHeader (k : String) : Bool :=
  eqFold k "Host" || eqFold k "Proxy-Authorization"

/-- Model of `http.Header.Set`: replace the entry whose name matches
case-insensitively (Go canonicalizes the MIME header key), else append. -/
def headerSet (hs : List (String × String)) (k v : String) : List (String × String) :=
  match hs with
  | [] => [(k, v)]
  | (k', v') :: rest =>
      if eqFold k' k then (k, v) :: rest else (k', v') :: headerSet rest k v

/-- Exact-key lookup in the script's header map (Go `headers["Content-Type"]`,
yielding `""` for a missing key). -/
def mapGetD (hs : List (String × String)) (k : String) : String :=
  match hs with
  | [] => ""
  | (k', v) :: rest => if k' = k then v else mapGetD rest k

/-- One iteration of the header-copy loop (lines 313-318): skip `Host`
and `Proxy-Authorization` case-insensitively, set everything else. -/
def copyHeaderStep (acc : List (String × String)) (kv : String × String) :
    List (String × String) :=
  if blockedHeader kv.1 then acc else headerSet acc kv.1 kv.2

/-- Header construction of `doHTTPRequest` (lines 309-318): set the
`User-Agent`, default the `Content-Type` when a body content type was
inferred and the script did not supply one, then copy the script's
headers through `copyHeaderStep`. -/
def buildRequestHeaders (contentType : String) (headers : List (String × String)) :
    List (String × String) :=
  let init := [("User-Agent", "AuraLogic-ScriptDelivery/1.0")]
  let init := if contentType ≠ "" ∧ mapGetD headers "Content-Type" = "" then
      headerSet init "Content-Type" contentType
    else init
  headers.foldl copyHeaderStep init

/-- Content-type inference for a string body (lines 287-293): JSON when
the trimmed body starts with a brace or bracket, plain text otherwise. -/
def inferContentType (body : Option String) : String :=
  match body with
  | none => ""
  | some s =>
      if s.trim.startsWith "\x7b" || s.trim.startsWith "[" then "application/json"
      else "text/plain"

/-- Abstract transport outcome: `none` models a `client.Do` error,
`some` a response with its status, body, and whether the response
declared a JSON content type. -/
structure HTTPResponse where
  status : Int
  body : String
  isJSON : Bool
deriving DecidableEq, Repr

/-- What one call of `doHTTPRequest` produces: the data-shaped value
returned to the script (never an exception), whether an outbound request
was performed, and the headers it carried. -/
structure HTTPCallOutcome where
  value : GoValue
  requestSent : Bool
  sentHeaders : List (String × String)

/-- Shallow embedding of `doHTTPRequest` (script_delivery_service.go,
lines 271-346).  `parsed = none` stands for a URL parse error; the
network is abstracted by the `net` argument; only string bodies are
modelled (a non-string body is JSON-marshalled to a string upstream). -/
def doHTTPRequest (parsed : Option URLm) (body : Option String)
    (headers : List (String × String)) (net : Option HTTPResponse) : HTTPCallOutcome :=
  match parsed with
  | none =>
      { value := .vobj [("error", .vstr "Invalid URL"), ("status", .vint 0)],
        requestSent := false, sentHeaders := [] }
  | some u =>
      match validateExternalURL u with
      | .error _ =>
          { value := .vobj [("error", .vstr "URL is not allowed"), ("status", .vint 0)],
            requestSent := false, sentHeaders := [] }
      | .ok _ =>
          let hdrs := buildRequestHeaders (inferContentType body) headers
          match net with
          | none =>
              { value := .vobj [("error", .vstr "Request failed"), ("status", .vint 0)],
                requestSent := true, sentHeaders := hdrs }
          | some resp =>
              let base := [("status", GoValue.vint resp.status), ("body", GoValue.vstr resp.body)]
              { value := .vobj (if resp.isJSON then base ++ [("data", .vstr resp.body)] else base),
                requestSent := true, sentHeaders := hdrs }

/-! ### Dual-path pending delivery quantity

The computing code lives in `virtual_inventory_service.go`
(`HasPendingVirtualStock` / `getScriptPendingItems`), which is not among
the provided sources; the definitions below are modelled from the spec
(§4.2 Binding Tracker, §4.3 `PendingDeliveryQuantity`) and the script
delivery document (§3.2). -/

inductive PoolKind where
  | staticPool : PoolKind
  | scriptPool : PoolKind
deriving DecidableEq, Repr

inductive StockStatus where
  | available : StockStatus
  | reserved : StockStatus
  | sold : StockStatus
  | invalidated : StockStatus
deriving DecidableEq, Repr

/-- A `virtual_product_stocks` row, restricted to the fields the
pending-quantity formula reads. -/
structure MStockItem where
  poolId : Nat
  status : StockStatus
  orderNo : Option String
deriving DecidableEq, Repr

/-- An inventory pool, restricted to identity and kind. -/
structure MPool where
  id : Nat
  kind : PoolKind
deriving DecidableEq, Repr

/-- One entry of `order.virtual_inventory_bindings` for a given order:
an order item bound to a script pool with its quantity. -/
structure MBinding where
  poolId : Nat
  qty : Int
deriving DecidableEq, Repr

/-- The persistent state the formula consults. -/
structure Store where
  pools : List MPool
  stocks : List MStockItem
deriving Repr

def poolKindOf (st : Store) (pid : Nat) : Option PoolKind :=
  (st.pools.find? (fun p => p.id == pid)).map (fun p => p.kind)

def isScriptPool (st : Store) (pid : Nat) : Bool :=
  poolKindOf st pid == some .scriptPool

/-- Modelled from the spec: legacy path — count of `StockItem` rows with
status `reserved` whose pool is `script`-kind and whose order reference
matches. -/
def legacyReservedScriptCount (st : Store) (orderNo : String) : Nat :=
  (st.stocks.filter (fun it =>
    it.status == .reserved && it.orderNo == some orderNo && isScriptPool st it.poolId)).length

/-- Count of rows already `sold` to this order from the given pool. -/
def soldCountFor (st : Store) (orderNo : String) (pid : Nat) : Nat :=
  (st.stocks.filter (fun it =>
    it.status == .sold && it.orderNo == some orderNo && it.poolId == pid)).length

/-- Total quantity bound to the given pool across the order's items. -/
def boundQtyFor (bs : List MBinding) (pid : Nat) : Int :=
  ((bs.filter (fun b => b.poolId == pid)).map (fun b => b.qty)).sum

/-- The distinct pools bound to the order, in first-appearance order. -/
def boundPools (bs : List MBinding) : List Nat :=
  (bs.map (fun b => b.poolId)).dedup

/-- Modelled from the spec: `Binding Tracker.PendingFor(order)` — per
bound pool, bound quantity minus the quantity already sold to this
order. -/
def pendingFor (st : Store) (orderNo : String) (bs : List MBinding) : List (Nat × Int) :=
  (boundPools bs).map (fun p => (p, boundQtyFor bs p - (soldCountFor st orderNo p : Int)))

/-- Modelled from the spec: `PendingDeliveryQuantity(order)` — the dual
path sum of the legacy reserved-placeholder count and the Binding
Tracker's pending quantities summed across pools. -/
def PendingDeliveryQuantity (st : Store) (orderNo : String) (bs : List MBinding) : Int :=
  (legacyReservedScriptCount st orderNo : Int) +
    ((pendingFor st orderNo bs).map (fun pq => pq.2)).sum

/-! ### Order auto-cancel sweep (order_cancel_service.go) -/

inductive OrderStatus where
  | draft : OrderStatus
  | pendingPayment : OrderStatus
  | needResubmit : OrderStatus
  | processing : OrderStatus
  | completed : OrderStatus
  | cancelled : OrderStatus
deriving DecidableEq, Repr

/-- An order, restricted to the fields the cancel sweep touches.
`inventoryBindings` models the `map[int]uint` from item index to
physical inventory id (`none` = key absent). -/
structure COrder where
  status : OrderStatus
  createdAt : Int
  items : List Nat
  inventoryBindings : List (Option Nat)
  promoCodeId : Option Nat
  adminRemark : String
deriving DecidableEq, Repr

/-- `defaultAutoCancelHours` (line 16). -/
def defaultAutoCancelHours : Int := 72

/-- `getAutoCancelHours` (lines 53-58): the configured hours when
positive, otherwise the default. -/
def getAutoCancelHours (cfgHours : Int) : Int :=
  if cfgHours > 0 then cfgHours else defaultAutoCancelHours

/-- The cutoff computed by `cancelExpiredOrders` (line 105), with time
in Unix seconds. -/
def orderCancelCutoff (cfgHours now : Int) : Int :=
  now - getAutoCancelHours cfgHours * 3600

/-- The WHERE clause of the expired-order query (line 109). -/
def expiredOrderPred (cfgHours now : Int) (o : COrder) : Bool :=
  o.status == .pendingPayment && o.createdAt < orderCancelCutoff cfgHours now

/-- The batch selected by one tick of `cancelExpiredOrders`
(lines 108-110): matching orders, at most 100. -/
def selectExpiredOrders (cfgHours now : Int) (orders : List COrder) : List COrder :=
  (orders.filter (expiredOrderPred cfgHours now)).take 100

/-- Success/failure of each resource release, abstracting the
collaborating repositories' behaviour.  Releases only fail or succeed;
they do not change the order row. -/
structure ReleaseOutcomes where
  invOk : Nat → Bool
  virtualOk : Bool
  promoOk : Bool
  serialOk : Bool

/-- The inventory ids the release loop (lines 157-165) attempts, in
item-index order: indices whose binding exists and is positive. -/
def invAttempts (o : COrder) : List Nat :=
  (List.range o.items.length).filterMap (fun i =>
    match o.inventoryBindings.getD i none with
    | some invId => if invId > 0 then some invId else none
    | none => none)

/-- `adminRemark` written by the conditional update (line 140). -/
def autoCancelRemark (hours : Int) : String :=
  "System auto-cancelled: order unpaid after " ++ toString hours ++ " hours"

/-- Observable effects of one `cancelOrder` call. -/
structure CancelEffect where
  order : COrder
  rowsAffected : Nat
  invReleaseAttempts : List Nat
  virtualReleaseAttempted : Bool
  promoReleaseAttempted : Bool
  serialDeleteAttempted : Bool
  failureLogs : Nat
  err : Option String
deriving Repr

/-- Shallow embedding of `cancelOrder` (order_cancel_service.go,
lines 138-195): a conditional update guarded by
`WHERE status = pending_payment`; zero rows affected returns `nil`
without releasing anything; on success every release is attempted
independently and failures are only logged. -/
def cancelOrder (o : COrder) (hours : Int) (rel : ReleaseOutcomes) : CancelEffect :=
  if o.status = .pendingPayment then
    let o' := { o with status := .cancelled, adminRemark := autoCancelRemark hours }
    let attempts := invAttempts o
    let failLogs :=
      (attempts.filter (fun invId => !(rel.invOk invId))).length
      + (if rel.virtualOk then 0 else 1)
      + (if o.promoCodeId.isSome then (if rel.promoOk then 0 else 1) else 0)
      + (if rel.serialOk then 0 else 1)
    { order := o', rowsAffected := 1, invReleaseAttempts := attempts,
      virtualReleaseAttempted := true,
      promoReleaseAttempted := o.promoCodeId.isSome,
      serialDeleteAttempted := true,
      failureLogs := failLogs, err := none }
  else
    { order := o, rowsAffected := 0, invReleaseAttempts := [],
      virtualReleaseAttempted := false, promoReleaseAttempted := false,
      serialDeleteAttempted := false, failureLogs := 0, err := none }

/-! ### Ticket auto-close sweep (ticket_auto_close_service.go) -/

inductive TicketStatus where
  | tOpen : TicketStatus
  | tProcessing : TicketStatus
  | tResolved : TicketStatus
  | tClosed : TicketStatus
deriving DecidableEq, Repr

/-- A ticket, restricted to the fields the auto-close sweep touches.
`userLocale` is the preloaded user's language preference. -/
structure MTicket where
  status : TicketStatus
  unreadCountUser : Nat
  messages : List String
  lastMessageAt : Option Int
  lastMessagePreview : String
  lastMessageBy : String
  closedAt : Option Int
  userLocale : String
deriving DecidableEq, Repr

/-- The active status set of `closeInactiveTickets` (lines 83-87). -/
def activeTicketStatuses : List TicketStatus := [.tOpen, .tProcessing, .tResolved]

/-- The cutoff computed by `closeInactiveTickets` (line 80), with time
in Unix seconds. -/
def ticketCloseCutoff (autoCloseHours now : Int) : Int :=
  now - autoCloseHours * 3600

/-- The WHERE clause of the inactive-ticket query (lines 91-95): status
in the active set, `last_message_at IS NOT NULL` and older than the
cutoff. -/
def inactiveTicketPred (cutoff : Int) (t : MTicket) : Bool :=
  activeTicketStatuses.contains t.status &&
    (match t.lastMessageAt with
     | none => false
     | some ts => ts < cutoff)

/-- The batch selected by one tick of `closeInactiveTickets`
(lines 73-95): nothing when auto-close is disabled (hours ≤ 0),
otherwise matching tickets, at most 100. -/
def closeInactiveTicketCandidates (autoCloseHours now : Int) (tickets : List MTicket) :
    List MTicket :=
  if autoCloseHours ≤ 0 then []
  else (tickets.filter (inactiveTicketPred (ticketCloseCutoff autoCloseHours now))).take 100

/-- `ticketAutoCloseMessage` (lines 177-188). -/
def ticketAutoCloseMessage (locale : String) (hours : Int) : String :=
  if locale = "zh" then
    "工单已超过 " ++ toString hours ++ " 小时无回复，系统自动关闭。"
  else
    "Ticket automatically closed after " ++ toString hours ++ " hours with no reply."

/-- Fault injection for the two fallible writes inside the transaction
(system-message insert, counter update). -/
structure TxFaults where
  msgCreateFails : Bool
  counterUpdateFails : Bool

/-- The transaction body of `closeTicket` (lines 126-173): conditional
status flip guarded by `WHERE status IN activeStatuses` (zero rows
affected returns early with no further writes), then the system message
insert, then the unread-counter / last-message update.  An error at any
step aborts the transaction. -/
def closeTicketTx (t : MTicket) (hours now : Int) (f : TxFaults) : Except String MTicket :=
  if t.status ∈ activeTicketStatuses then
    let t1 := { t with status := .tClosed, closedAt := some now }
    if f.msgCreateFails then .error "message create failed"
    else
      let content := ticketAutoCloseMessage t.userLocale hours
      let t2 := { t1 with messages := t1.messages ++ [content] }
      if f.counterUpdateFails then .error "counter update failed"
      else .ok { t2 with
        unreadCountUser := t2.unreadCountUser + 1,
        lastMessageAt := some now,
        lastMessagePreview := content.take 200,
        lastMessageBy := "admin" }
  else .ok t

/-- Shallow embedding of `closeTicket` (lines 125-174): the transaction
body runs atomically — on an error the database state rolls back to the
original ticket and the error is returned. -/
def closeTicket (t : MTicket) (hours now : Int) (f : TxFaults) : MTicket × Option String :=
  match closeTicketTx t hours now f with
  | .ok t' => (t', none)
  | .error e => (t, some e)

/-! ## Theorems -/

/-- C1: for every script return value parsed by `parseDeliveryResult`
with `success = true`, the result is accepted exactly when at least one
item with non-empty content remains after filtering; a count mismatch
only sets the logged warning (the accepted result does not depend on the
expected quantity), and the attempt fails only when zero valid items
remain. -/
theorem parse_success_accepts_iff_valid_items
    (fields : List (String × GoValue)) (q : Int)
    (hs : lookupF fields "success" = some (.vbool true)) :
    ((∃ r w, parseDeliveryResult (some (.vobj fields)) q = .ok r w) ↔
      extractValidItems fields ≠ []) ∧
    (∀ r w, parseDeliveryResult (some (.vobj fields)) q = .ok r w →
      r.items = extractValidItems fields ∧ (w = true ↔ (r.items.length : Int) ≠ q)) ∧
    (extractValidItems fields = [] →
      parseDeliveryResult (some (.vobj fields)) q = .err "script returned no delivery items") := by
  have hparse : parseDeliveryResult (some (.vobj fields)) q =
      (if (extractValidItems fields).isEmpty then
        ParseOutcome.err "script returned no delivery items"
      else
        ParseOutcome.ok ⟨true, extractValidItems fields,
          (match lookupF fields "message" with | some (.vstr s) => s | _ => "")⟩
          (decide (((extractValidItems fields).length : Int) ≠ q))) := by
    simp only [parseDeliveryResult, hs]
    simp
  cases hv : extractValidItems fields with
  | nil =>
      rw [hv] at hparse
      simp only [List.isEmpty_nil, if_true] at hparse
      refine ⟨?_, ?_, fun _ => hparse⟩
      · constructor
        · rintro ⟨r, w, hr⟩
          rw [hparse] at hr
          exact absurd hr (by simp)
        · intro hne
          exact absurd rfl hne
      · intro r w hr
        rw [hparse] at hr
        exact absurd hr (by simp)
  | cons a as =>
      rw [hv] at hparse
      simp only [List.isEmpty_cons, Bool.false_eq_true, if_false] at hparse
      refine ⟨?_, ?_, ?_⟩
      · constructor
        · intro _
          simp
        · intro _
          exact ⟨_, _, hparse⟩
      · intro r w hr
        rw [hparse] at hr
        injection hr.symm with h1 h2
        subst h1
        subst h2
        constructor
        · rfl
        · simp
      · intro h
        exact List.noConfusion h

/-- C1 witness: a script returning `{success: true, items: [{content:
"A"}]}` for a requested quantity of 3 is accepted, its parsed item list
is the single filtered item, and the mismatch warning is set. -/
theorem parse_success_accepts_iff_valid_items_witness :
    ((∃ r w, parseDeliveryResult (some (.vobj
        [("success", .vbool true),
         ("items", .varr [.vobj [("content", .vstr "A")]])])) 3 = .ok r w) ↔
      extractValidItems
        [("success", .vbool true),
         ("items", .varr [.vobj [("content", .vstr "A")]])] ≠ []) ∧
    (∀ r w, parseDeliveryResult (some (.vobj
        [("success", .vbool true),
         ("items", .varr [.vobj [("content", .vstr "A")]])])) 3 = .ok r w →
      r.items = extractValidItems
        [("success", .vbool true),
         ("items", .varr [.vobj [("content", .vstr "A")]])] ∧
      (w = true ↔ (r.items.length : Int) ≠ 3)) ∧
    (extractValidItems
        [("success", .vbool true),
         ("items", .varr [.vobj [("content", .vstr "A")]])] = [] →
      parseDeliveryResult (some (.vobj
        [("success", .vbool true),
         ("items", .varr [.vobj [("content", .vstr "A")]])])) 3 =
        .err "script returned no delivery items") :=
  parse_success_accepts_iff_valid_items
    [("success", .vbool true), ("items", .varr [.vobj [("content", .vstr "A")]])] 3 rfl

/-- C3: for every script whose `onDeliver` returns `{success: false,
message: m}` (or with `success` absent), the delivery attempt fails, the
failure message is the script's message (defaulting to the generic
failure string when it is empty), and zero stock rows are created by the
attempt. -/
theorem parse_failure_carries_message_and_creates_no_rows
    (fields : List (String × GoValue)) (q : Int)
    (hs : lookupF fields "success" = some (.vbool false) ∨ lookupF fields "success" = none) :
    (parseDeliveryResult (some (.vobj fields)) q =
      .err ("script delivery failed: " ++
        (if (match lookupF fields "message" with | some (.vstr s) => s | _ => "") = "" then
          "script delivery failed"
        else match lookupF fields "message" with | some (.vstr s) => s | _ => ""))) ∧
    stockRowsCreated (parseDeliveryResult (some (.vobj fields)) q) = 0 := by
  have hparse : parseDeliveryResult (some (.vobj fields)) q =
      .err ("script delivery failed: " ++
        (if (match lookupF fields "message" with | some (.vstr s) => s | _ => "") = "" then
          "script delivery failed"
        else match lookupF fields "message" with | some (.vstr s) => s | _ => "")) := by
    rcases hs with hs | hs <;>
    · simp only [parseDeliveryResult, hs]
      simp
  exact ⟨hparse, by rw [hparse]; rfl⟩

/-- C3 witness: a script returning `{success: false, message: "no
stock"}` fails with the message `"no stock"` and creates zero stock
rows. -/
theorem parse_failure_carries_message_and_creates_no_rows_witness :
    (parseDeliveryResult (some (.vobj
        [("success", .vbool false), ("message", .vstr "no stock")])) 1 =
      .err ("script delivery failed: " ++
        (if (match lookupF [("success", .vbool false), ("message", .vstr "no stock")]
              "message" with | some (.vstr s) => s | _ => "") = "" then
          "script delivery failed"
        else match lookupF [("success", .vbool false), ("message", .vstr "no stock")]
              "message" with | some (.vstr s) => s | _ => ""))) ∧
    stockRowsCreated (parseDeliveryResult (some (.vobj
        [("success", .vbool false), ("message", .vstr "no stock")])) 1) = 0 :=
  parse_failure_carries_message_and_creates_no_rows
    [("success", .vbool false), ("message", .vstr "no stock")] 1 (Or.inl rfl)

/-- C4: for every script-initiated HTTP call whose destination fails the
egress validation, the call returns to the script a data-shaped result
with an `error` field and status 0 (a value, never a thrown exception),
and no outbound request is performed. -/
theorem blocked_url_returns_error_value_and_no_request
    (u : URLm) (body : Option String) (headers : List (String × String))
    (net : Option HTTPResponse)
    (hblocked : ∃ e, validateExternalURL u = .error e) :
    (doHTTPRequest (some u) body headers net).value =
      .vobj [("error", .vstr "URL is not allowed"), ("status", .vint 0)] ∧
    (doHTTPRequest (some u) body headers net).requestSent = false := by
  obtain ⟨e, he⟩ := hblocked
  simp [doHTTPRequest, he]

/-- C4 witness: calls targeting `http://127.0.0.1` (loopback) and
`http://169.254.169.254` (link-local metadata endpoint) both come back
as `{error, status: 0}` values with no request sent, for any transport
behaviour. -/
theorem blocked_url_returns_error_value_and_no_request_witness :
    ((doHTTPRequest (some ⟨"http", .ipv4 127 0 0 1⟩) none [] none).value =
        .vobj [("error", .vstr "URL is not allowed"), ("status", .vint 0)] ∧
      (doHTTPRequest (some ⟨"http", .ipv4 127 0 0 1⟩) none [] none).requestSent = false) ∧
    ((doHTTPRequest (some ⟨"http", .ipv4 169 254 169 254⟩) none []
        (some ⟨200, "ok", false⟩)).value =
        .vobj [("error", .vstr "URL is not allowed"), ("status", .vint 0)] ∧
      (doHTTPRequest (some ⟨"http", .ipv4 169 254 169 254⟩) none []
        (some ⟨200, "ok", false⟩)).requestSent = false) :=
  ⟨blocked_url_returns_error_value_and_no_request ⟨"http", .ipv4 127 0 0 1⟩ none [] none
      ⟨"loopback address not allowed", rfl⟩,
    blocked_url_returns_error_value_and_no_request ⟨"http", .ipv4 169 254 169 254⟩ none []
      (some ⟨200, "ok", false⟩) ⟨"link-local address not allowed", rfl⟩⟩

/-- Folding the header-copy loop over the script's headers is the same
as folding it over the headers with the blocked names removed, because
the loop body skips blocked names. -/
theorem copyHeaderStep_foldl_filter (hs : List (String × String)) :
    ∀ acc, hs.foldl copyHeaderStep acc =
      (hs.filter fun kv => !blockedHeader kv.1).foldl copyHeaderStep acc := by
  induction hs with
  | nil => intro _; rfl
  | cons kv rest ih =>
      intro acc
      cases hb : blockedHeader kv.1 with
      | true =>
          have hstep : copyHeaderStep acc kv = acc := by simp [copyHeaderStep, hb]
          simp [List.foldl_cons, List.filter_cons, hb, hstep, ih]
      | false =>
          simp [List.foldl_cons, List.filter_cons, hb, copyHeaderStep, ih]

/-- The exact-key `Content-Type` map lookup is unaffected by removing
the blocked header names, since `Content-Type` is not blocked. -/
theorem mapGetD_contentType_filter (hs : List (String × String)) :
    mapGetD (hs.filter fun kv => !blockedHeader kv.1) "Content-Type" =
      mapGetD hs "Content-Type" := by
  induction hs with
  | nil => rfl
  | cons kv rest ih =>
      cases hb : blockedHeader kv.1 with
      | false => simp [List.filter_cons, hb, mapGetD, ih]
      | true =>
          have hk : kv.1 ≠ "Content-Type" := by
            intro h
            rw [h] at hb
            exact absurd hb (by decide)
          simp [List.filter_cons, hb, mapGetD, hk, ih]

/-- The headers sent out are the same whether or not blocked names are
present in the script's header map. -/
theorem buildRequestHeaders_filter (ct : String) (hs : List (String × String)) :
    buildRequestHeaders ct hs =
      buildRequestHeaders ct (hs.filter fun kv => !blockedHeader kv.1) := by
  unfold buildRequestHeaders
  rw [mapGetD_contentType_filter]
  exact copyHeaderStep_foldl_filter hs _

/-- `headerSet` preserves the absence of blocked header names when the
inserted name is not blocked. -/
theorem headerSet_all_not_blocked (acc : List (String × String)) (k v : String)
    (ha : acc.all (fun kv => !blockedHeader kv.1) = true) (hk : blockedHeader k = false) :
    (headerSet acc k v).all (fun kv => !blockedHeader kv.1) = true := by
  induction acc with
  | nil => simp [headerSet, hk]
  | cons kv rest ih =>
      simp only [List.all_cons, Bool.and_eq_true] at ha
      obtain ⟨h1, h2⟩ := ha
      by_cases he : eqFold kv.1 k
      · simp [headerSet, he, List.all_cons, hk, h2]
      · simp [headerSet, he, List.all_cons, h1, ih h2]

/-- The header-copy loop preserves the absence of blocked header names. -/
theorem foldl_all_not_blocked (hs : List (String × String)) :
    ∀ acc, acc.all (fun kv => !blockedHeader kv.1) = true →
      (hs.foldl copyHeaderStep acc).all (fun kv => !blockedHeader kv.1) = true := by
  induction hs with
  | nil => intro acc ha; simpa using ha
  | cons kv rest ih =>
      intro acc ha
      rw [List.foldl_cons]
      cases hb : blockedHeader kv.1 with
      | true =>
          have hstep : copyHeaderStep acc kv = acc := by simp [copyHeaderStep, hb]
          rw [hstep]
          exact ih acc ha
      | false =>
          have hstep : copyHeaderStep acc kv = headerSet acc kv.1 kv.2 := by
            simp [copyHeaderStep, hb]
          rw [hstep]
          exact ih _ (headerSet_all_not_blocked acc kv.1 kv.2 ha hb)

/-- The initial header set (User-Agent, optional defaulted Content-Type)
contains no blocked header name. -/
theorem init_headers_all_not_blocked (ct : String) (headers : List (String × String)) :
    ((if ct ≠ "" ∧ mapGetD headers "Content-Type" = "" then
        headerSet [("User-Agent", "AuraLogic-ScriptDelivery/1.0")] "Content-Type" ct
      else [("User-Agent", "AuraLogic-ScriptDelivery/1.0")]).all
        (fun kv => !blockedHeader kv.1)) = true := by
  have hUA : blockedHeader "User-Agent" = false := by decide
  have hCT : blockedHeader "Content-Type" = false := by decide
  have hEq : eqFold "User-Agent" "Content-Type" = false := by decide
  by_cases hct : ct ≠ "" ∧ mapGetD headers "Content-Type" = ""
  · simp [if_pos hct, headerSet, hEq, List.all_cons, hUA, hCT]
  · simp [if_neg hct, List.all_cons, hUA]

/-- C8: for every script-initiated HTTP request, the outgoing request is
identical whether or not the script supplies `Host` or
`Proxy-Authorization` headers — removing every case-insensitive match of
those names from the script's header map leaves the whole call outcome
unchanged — and no header with a blocked name is ever set on the
request. -/
theorem script_host_proxy_auth_headers_ignored
    (parsed : Option URLm) (body : Option String) (headers : List (String × String))
    (net : Option HTTPResponse) (ct : String) :
    doHTTPRequest parsed body headers net =
      doHTTPRequest parsed body (headers.filter fun kv => !blockedHeader kv.1) net ∧
    (buildRequestHeaders ct headers).all (fun kv => !blockedHeader kv.1) = true := by
  constructor
  · cases parsed with
    | none => rfl
    | some u =>
        simp only [doHTTPRequest]
        rw [← buildRequestHeaders_filter]
  · unfold buildRequestHeaders
    exact foldl_all_not_blocked headers _ (init_headers_all_not_blocked ct headers)

/-- C2: for every order, `PendingDeliveryQuantity` equals the count of
reserved stock rows in script-kind pools referencing the order (legacy
path), plus, summed over all pools bound to the order, the bound
quantity minus the quantity already sold for that order (current
path). -/
theorem pending_delivery_quantity_dual_path
    (st : Store) (orderNo : String) (bs : List MBinding) :
    PendingDeliveryQuantity st orderNo bs =
      (legacyReservedScriptCount st orderNo : Int) +
        ((boundPools bs).map
          (fun p => boundQtyFor bs p - (soldCountFor st orderNo p : Int))).sum := by
  unfold PendingDeliveryQuantity pendingFor
  rw [List.map_map]
  rfl

/-- C5: the auto-cancel transition is a conditional update guarded by
`WHERE status = pending_payment`; with zero rows affected the order is
skipped without error and no release is attempted, so running the sweep
twice cancels the order exactly once. -/
theorem auto_cancel_conditional_update_idempotent
    (o : COrder) (hours : Int) (rel rel2 : ReleaseOutcomes)
    (h : o.status = .pendingPayment) :
    (cancelOrder o hours rel).rowsAffected = 1 ∧
    (cancelOrder o hours rel).order.status = .cancelled ∧
    (cancelOrder (cancelOrder o hours rel).order hours rel2).rowsAffected = 0 ∧
    (cancelOrder (cancelOrder o hours rel).order hours rel2).err = none ∧
    (cancelOrder (cancelOrder o hours rel).order hours rel2).order =
      (cancelOrder o hours rel).order ∧
    (cancelOrder (cancelOrder o hours rel).order hours rel2).invReleaseAttempts = [] ∧
    (cancelOrder (cancelOrder o hours rel).order hours rel2).virtualReleaseAttempted = false ∧
    (cancelOrder (cancelOrder o hours rel).order hours rel2).promoReleaseAttempted = false ∧
    (cancelOrder (cancelOrder o hours rel).order hours rel2).serialDeleteAttempted = false := by
  simp [cancelOrder, h]

/-- C6: when the conditional status update succeeds, every resource
release (static inventory, virtual stock, promo code, serial numbers) is
attempted, the attempts and the resulting order do not depend on which
releases fail, a failed release is logged, and `cancelOrder` still
reports success (no error) for every release outcome. -/
theorem auto_cancel_releases_independent
    (o : COrder) (hours : Int) (rel rel' : ReleaseOutcomes)
    (h : o.status = .pendingPayment) :
    (cancelOrder o hours rel).order = (cancelOrder o hours rel').order ∧
    (cancelOrder o hours rel).err = none ∧
    (cancelOrder o hours rel).order.status = .cancelled ∧
    (cancelOrder o hours rel).invReleaseAttempts = invAttempts o ∧
    (cancelOrder o hours rel).virtualReleaseAttempted = true ∧
    (cancelOrder o hours rel).promoReleaseAttempted = o.promoCodeId.isSome ∧
    (cancelOrder o hours rel).serialDeleteAttempted = true ∧
    (rel.virtualOk = false → 0 < (cancelOrder o hours rel).failureLogs) := by
  refine ⟨?_, ?_, ?_, ?_, ?_, ?_, ?_, ?_⟩ <;> simp [cancelOrder, h]
  intro hv
  simp [hv]

/-- C7: a ticket auto-closure is atomic — the status flip, the
locale-aware system message, and the unread-counter bump either all
happen or none do; a conditional update affecting zero rows creates no
message and bumps no counter. -/
theorem ticket_auto_close_atomic (t : MTicket) (hours now : Int) (f : TxFaults) :
    (t.status ∉ activeTicketStatuses → closeTicket t hours now f = (t, none)) ∧
    (t.status ∈ activeTicketStatuses →
      (closeTicket t hours now f).1 = t ∨
      ((closeTicket t hours now f).2 = none ∧
       (closeTicket t hours now f).1.status = .tClosed ∧
       (closeTicket t hours now f).1.messages =
         t.messages ++ [ticketAutoCloseMessage t.userLocale hours] ∧
       (closeTicket t hours now f).1.unreadCountUser = t.unreadCountUser + 1)) := by
  constructor
  · intro hn
    simp [closeTicket, closeTicketTx, hn]
  · intro hm
    cases hmc : f.msgCreateFails with
    | true =>
        left
        simp [closeTicket, closeTicketTx, hm, hmc]
    | false =>
        cases hcu : f.counterUpdateFails with
        | true =>
            left
            simp [closeTicket, closeTicketTx, hm, hmc, hcu]
        | false =>
            right
            simp [closeTicket, closeTicketTx, hm, hmc, hcu]

/-- C9: when the configured auto-cancel hours is zero or negative, the
sweep substitutes the default of 72 hours rather than being disabled:
pending-payment orders created more than 72 hours before now satisfy the
sweep's selection predicate. -/
theorem auto_cancel_hours_defaults_to_72 (cfg now : Int) (o : COrder) (h : cfg ≤ 0) :
    getAutoCancelHours cfg = 72 ∧
    (expiredOrderPred cfg now o = true ↔
      (o.status = .pendingPayment ∧ o.createdAt < now - 72 * 3600)) := by
  have h72 : getAutoCancelHours cfg = 72 := by
    unfold getAutoCancelHours defaultAutoCancelHours
    rw [if_neg (by omega)]
  refine ⟨h72, ?_⟩
  unfold expiredOrderPred orderCancelCutoff
  rw [h72]
  simp

/-- C10: a ticket whose `last_message_at` is null is never selected by
the auto-close sweep, and every selected ticket has a non-null
`last_message_at` older than the cutoff. -/
theorem null_last_message_never_auto_closed
    (hours now : Int) (tickets : List MTicket) (t : MTicket) :
    (t.lastMessageAt = none → t ∉ closeInactiveTicketCandidates hours now tickets) ∧
    (t ∈ closeInactiveTicketCandidates hours now tickets →
      ∃ m, t.lastMessageAt = some m ∧ m < ticketCloseCutoff hours now) := by
  constructor
  · intro hn hmem
    unfold closeInactiveTicketCandidates at hmem
    by_cases hh : hours ≤ 0
    · simp [hh] at hmem
    · rw [if_neg hh] at hmem
      have hin := List.take_subset _ _ hmem
      have hf := (List.mem_filter.mp hin).2
      rw [inactiveTicketPred, hn] at hf
      simp at hf
  · intro hmem
    unfold closeInactiveTicketCandidates at hmem
    by_cases hh : hours ≤ 0
    · simp [hh] at hmem
    · rw [if_neg hh] at hmem
      have hin := List.take_subset _ _ hmem
      have hf := (List.mem_filter.mp hin).2
      rw [inactiveTicketPred] at hf
      cases hl : t.lastMessageAt with
      | none =>
          rw [hl] at hf
          simp at hf
      | some m =>
          rw [hl] at hf
          simp at hf
          exact ⟨m, rfl, hf.2⟩

/-! ## Concrete fixtures for witnesses -/

/-- A pending-payment order with one bound physical inventory, one
unbound item, and a promo code. -/
def sampleOrder : COrder :=
  { status := .pendingPayment, createdAt := 0, items := [2, 1],
    inventoryBindings := [some 5, none], promoCodeId := some 9, adminRemark := "" }

/-- Release outcomes where the virtual-stock release fails. -/
def sampleReleases : ReleaseOutcomes :=
  { invOk := fun _ => true, virtualOk := false, promoOk := true, serialOk := true }

/-- An open ticket with an old last message, Chinese locale. -/
def sampleTicket : MTicket :=
  { status := .tOpen, unreadCountUser := 0, messages := [], lastMessageAt := some 100,
    lastMessagePreview := "", lastMessageBy := "user", closedAt := none, userLocale := "zh" }

/-- An open ticket that never received a message. -/
def nullMsgTicket : MTicket :=
  { status := .tOpen, unreadCountUser := 0, messages := [], lastMessageAt := none,
    lastMessagePreview := "", lastMessageBy := "", closedAt := none, userLocale := "" }

/-- C5 witness: a concrete pending-payment order is cancelled by the
first sweep run; the second run affects zero rows, reports no error,
leaves the order unchanged and attempts no release. -/
theorem auto_cancel_conditional_update_idempotent_witness :
    (cancelOrder sampleOrder 72 sampleReleases).rowsAffected = 1 ∧
    (cancelOrder sampleOrder 72 sampleReleases).order.status = .cancelled ∧
    (cancelOrder (cancelOrder sampleOrder 72 sampleReleases).order 72
      sampleReleases).rowsAffected = 0 ∧
    (cancelOrder (cancelOrder sampleOrder 72 sampleReleases).order 72
      sampleReleases).err = none ∧
    (cancelOrder (cancelOrder sampleOrder 72 sampleReleases).order 72
      sampleReleases).order = (cancelOrder sampleOrder 72 sampleReleases).order ∧
    (cancelOrder (cancelOrder sampleOrder 72 sampleReleases).order 72
      sampleReleases).invReleaseAttempts = [] ∧
    (cancelOrder (cancelOrder sampleOrder 72 sampleReleases).order 72
      sampleReleases).virtualReleaseAttempted = false ∧
    (cancelOrder (cancelOrder sampleOrder 72 sampleReleases).order 72
      sampleReleases).promoReleaseAttempted = false ∧
    (cancelOrder (cancelOrder sampleOrder 72 sampleReleases).order 72
      sampleReleases).serialDeleteAttempted = false :=
  auto_cancel_conditional_update_idempotent sampleOrder 72 sampleReleases sampleReleases rfl

/-- C6 witness: cancelling a concrete pending-payment order with a
failing virtual-stock release still reports success, flips the status to
cancelled, attempts the serial deletion, and logs the failure. -/
theorem auto_cancel_releases_independent_witness :
    (cancelOrder sampleOrder 72 sampleReleases).err = none ∧
    (cancelOrder sampleOrder 72 sampleReleases).order.status = .cancelled ∧
    (cancelOrder sampleOrder 72 sampleReleases).serialDeleteAttempted = true ∧
    0 < (cancelOrder sampleOrder 72 sampleReleases).failureLogs :=
  ⟨(auto_cancel_releases_independent sampleOrder 72 sampleReleases sampleReleases rfl).2.1,
   (auto_cancel_releases_independent sampleOrder 72 sampleReleases sampleReleases rfl).2.2.1,
   (auto_cancel_releases_independent sampleOrder 72 sampleReleases
      sampleReleases rfl).2.2.2.2.2.2.1,
   (auto_cancel_releases_independent sampleOrder 72 sampleReleases
      sampleReleases rfl).2.2.2.2.2.2.2 rfl⟩

/-- C7 witness: auto-closing a concrete open ticket with no injected
fault either leaves it untouched or performs the full atomic update;
here the conditional update matches, so the full update applies. -/
theorem ticket_auto_close_atomic_witness :
    (closeTicket sampleTicket 24 1000 ⟨false, false⟩).1 = sampleTicket ∨
    ((closeTicket sampleTicket 24 1000 ⟨false, false⟩).2 = none ∧
     (closeTicket sampleTicket 24 1000 ⟨false, false⟩).1.status = .tClosed ∧
     (closeTicket sampleTicket 24 1000 ⟨false, false⟩).1.messages =
       sampleTicket.messages ++ [ticketAutoCloseMessage sampleTicket.userLocale 24] ∧
     (closeTicket sampleTicket 24 1000 ⟨false, false⟩).1.unreadCountUser =
       sampleTicket.unreadCountUser + 1) :=
  (ticket_auto_close_atomic sampleTicket 24 1000 ⟨false, false⟩).2 (by decide)

/-- C9 witness: with the auto-cancel hours configured to 0, the
effective value is the 72-hour default and the selection predicate is
the 72-hour staleness test on a concrete order. -/
theorem auto_cancel_hours_defaults_to_72_witness :
    getAutoCancelHours 0 = 72 ∧
    (expiredOrderPred 0 1000000 sampleOrder = true ↔
      (sampleOrder.status = .pendingPayment ∧
        sampleOrder.createdAt < 1000000 - 72 * 3600)) :=
  auto_cancel_hours_defaults_to_72 0 1000000 sampleOrder (le_refl 0)

/-- C10 witness: a concrete open ticket with a null `last_message_at` is
not selected by a concrete sweep even though another ticket is old
enough to be. -/
theorem null_last_message_never_auto_closed_witness :
    nullMsgTicket ∉ closeInactiveTicketCandidates 24 1000000 [nullMsgTicket, sampleTicket] :=
  (null_last_message_never_auto_closed 24 1000000 [nullMsgTicket, sampleTicket]
    nullMsgTicket).1 rfl

end AuraLogic
